import Mathlib

/-!
Verification of the dataset-preparation pipeline of
`marketing_strategy_dashboard_2025.py`.

The pipeline is the function `load_and_preprocess_data` (source lines
524-590): parse the uploaded file by extension, coerce the two date
columns with `pd.to_datetime(errors='coerce')`, drop rows whose date
year is not `< 2026`, drop duplicate rows, drop rows with missing
`Film_Name`, coerce `Viewer_Rate` / `Number_of_Views` with
`pd.to_numeric(errors='coerce')`, drop rows where either is missing,
derive date parts and `Engagement_Score`, and report a preprocessing
summary.  The quadrant classification (source lines 1110-1116) labels
each cleaned row by comparing its views and rating to the column
medians.

Modelling conventions of the shallow embedding:
* a raw cell of a date column is a `DCell`: missing, an unparseable
  string, or a concrete calendar date; `to_datetime` maps it to
  `Option Date` exactly as `pd.to_datetime(errors='coerce')` maps a
  cell to `NaT` or a timestamp;
* a raw cell of a numeric column is an `NCell`: missing, or a raw
  string together with the value `pd.to_numeric(errors='coerce')`
  gives it (`none` for a non-numeric string).  Carrying the parse
  result in the cell keeps the embedding free of a string-to-number
  parser while preserving the one fact that matters: distinct raw
  strings may parse to the same number;
* pandas `NaN`/`NaT` comparison semantics: any comparison against a
  missing value is `false`.  In particular `df['Release_Date'].dt.year
  < 2026` is `false` on a `NaT` row, so such a row is removed by the
  boolean-mask filter on source line 544;
* column presence (`if col in df.columns`) is modelled by the two
  Booleans of `RawTable`; the five mandatory columns of the dataset
  schema are always present;
* machine floats are modelled by `ℚ` for data values and by `ℝ` for
  the derived `Engagement_Score = Viewer_Rate * np.log1p(Number_of_Views)`.
-/

/-- A calendar date as produced by `pd.to_datetime`. -/
structure Date where
  year : Int
  month : Int
  day : Int
deriving DecidableEq, Repr

/-- A raw cell of a date column before `pd.to_datetime`. -/
inductive DCell where
  | missing : DCell
  | unparseable : String → DCell
  | value : Date → DCell
deriving DecidableEq, Repr

/-- `pd.to_datetime(cell, errors='coerce')`: missing and unparseable
cells become `NaT` (here `none`), parseable cells become dates. -/
def to_datetime : DCell → Option Date
  | .missing => none
  | .unparseable _ => none
  | .value d => some d

/-- A raw cell of a numeric column: missing, or a raw string paired
with the value `pd.to_numeric(errors='coerce')` assigns it (`none`
when the string is not numeric). -/
inductive NCell where
  | missing : NCell
  | entry : String → Option ℚ → NCell
deriving DecidableEq, Repr

/-- `pd.to_numeric(cell, errors='coerce')`. -/
def to_numeric : NCell → Option ℚ
  | .missing => none
  | .entry _ v => v

/-- A parsed row as it comes out of `pd.read_csv` / `pd.read_excel`:
all cells still raw. -/
structure RawRow where
  film_Name : Option String
  category : Option String
  language : Option String
  release_Date : DCell
  viewing_Month : DCell
  viewer_Rate : NCell
  number_of_Views : NCell
deriving DecidableEq, Repr

/-- A row after the date-coercion step (source lines 537-540): date
columns hold `Option Date`, numeric columns are still raw. -/
structure Row where
  film_Name : Option String
  category : Option String
  language : Option String
  release_Date : Option Date
  viewing_Month : Option Date
  viewer_Rate : NCell
  number_of_Views : NCell
deriving DecidableEq, Repr

/-- A row after the numeric-coercion step (source lines 555-558). -/
structure NRow where
  film_Name : Option String
  category : Option String
  language : Option String
  release_Date : Option Date
  viewing_Month : Option Date
  viewer_Rate : Option ℚ
  number_of_Views : Option ℚ
deriving DecidableEq, Repr

/-- The parsed table: the rows plus which of the two optional date
columns exist (`col in df.columns`). -/
structure RawTable where
  hasReleaseDate : Bool
  hasViewingMonth : Bool
  rows : List RawRow
deriving DecidableEq, Repr

/-- Column count of the parsed table: the five mandatory schema
columns plus the date columns that exist. -/
def RawTable.ncols (t : RawTable) : Nat :=
  5 + (if t.hasReleaseDate then 1 else 0) + (if t.hasViewingMonth then 1 else 0)

/-- Date-coercion step (source lines 537-540): `pd.to_datetime` on
each date column that exists. -/
def coerceDates (t : RawTable) : List Row :=
  t.rows.map fun r =>
    { film_Name := r.film_Name
      category := r.category
      language := r.language
      release_Date := if t.hasReleaseDate then to_datetime r.release_Date else none
      viewing_Month := if t.hasViewingMonth then to_datetime r.viewing_Month else none
      viewer_Rate := r.viewer_Rate
      number_of_Views := r.number_of_Views }

/-- The boolean mask `col.dt.year < 2026` of source lines 544/546.
On a missing date (`NaT`) the year is `NaN` and `NaN < 2026` is
`false` in pandas, so a missing date fails the mask. -/
def yearLT2026 : Option Date → Bool
  | some d => decide (d.year < 2026)
  | none => false

/-- Future-date filtering step (source lines 542-546): for each date
column that exists, keep only the rows passing `dt.year < 2026`. -/
def filterFutureDates (hasRD hasVM : Bool) (rows : List Row) : List Row :=
  let rows1 := if hasRD then rows.filter (fun r => yearLT2026 r.release_Date) else rows
  if hasVM then rows1.filter (fun r => yearLT2026 r.viewing_Month) else rows1

/-- Helper of `drop_duplicates`: keep the rows not seen before,
remembering the rows already kept. -/
def ddAux {α : Type} [DecidableEq α] (seen : List α) : List α → List α
  | [] => []
  | x :: xs => if x ∈ seen then ddAux seen xs else x :: ddAux (x :: seen) xs

/-- `df.drop_duplicates()` (source line 549): remove exact full-row
duplicates, keeping the first occurrence. -/
def drop_duplicates {α : Type} [DecidableEq α] (l : List α) : List α :=
  ddAux [] l

/-- `df.dropna(subset=['Film_Name'])` (source line 552). -/
def dropnaFilm (rows : List Row) : List Row :=
  rows.filter fun r => r.film_Name.isSome

/-- Numeric-coercion step (source lines 555-558): `pd.to_numeric` on
`Viewer_Rate` and `Number_of_Views`. -/
def coerceNumeric (rows : List Row) : List NRow :=
  rows.map fun r =>
    { film_Name := r.film_Name
      category := r.category
      language := r.language
      release_Date := r.release_Date
      viewing_Month := r.viewing_Month
      viewer_Rate := to_numeric r.viewer_Rate
      number_of_Views := to_numeric r.number_of_Views }

/-- `df.dropna(subset=['Viewer_Rate', 'Number_of_Views'])` (source
line 561). -/
def dropnaNumeric (rows : List NRow) : List NRow :=
  rows.filter fun r => r.viewer_Rate.isSome && r.number_of_Views.isSome

/-- The whole cleaning pipeline up to (and excluding) feature
derivation, in the source's order: date coercion, future-date
filtering, deduplication, `Film_Name` filtering, numeric coercion,
numeric-required filtering. -/
def cleanRows (t : RawTable) : List NRow :=
  dropnaNumeric (coerceNumeric (dropnaFilm (drop_duplicates
    (filterFutureDates t.hasReleaseDate t.hasViewingMonth (coerceDates t)))))

/-- `strftime('%B')`: English month name. -/
def monthName (m : Int) : String :=
  if m = 1 then "January" else if m = 2 then "February"
  else if m = 3 then "March" else if m = 4 then "April"
  else if m = 5 then "May" else if m = 6 then "June"
  else if m = 7 then "July" else if m = 8 then "August"
  else if m = 9 then "September" else if m = 10 then "October"
  else if m = 11 then "November" else if m = 12 then "December"
  else "Invalid"

/-- A fully cleaned, feature-enriched row (source lines 563-576). -/
structure CleanedRow where
  film_Name : Option String
  category : Option String
  language : Option String
  release_Date : Option Date
  viewing_Month : Option Date
  viewer_Rate : Option ℚ
  number_of_Views : Option ℚ
  release_Year : Option Int
  release_Month : Option Int
  release_Month_Name : Option String
  viewing_Year : Option Int
  viewing_Month_Num : Option Int
  viewing_Month_Name : Option String
  engagement_Score : Option ℝ

/-- Feature-derivation step (source lines 563-576): date parts for
each date column that exists, and
`Engagement_Score = Viewer_Rate * np.log1p(Number_of_Views)`, missing
when either input is missing (`NaN` propagates through `*`). -/
noncomputable def derive (hasRD hasVM : Bool) (r : NRow) : CleanedRow :=
  { film_Name := r.film_Name
    category := r.category
    language := r.language
    release_Date := r.release_Date
    viewing_Month := r.viewing_Month
    viewer_Rate := r.viewer_Rate
    number_of_Views := r.number_of_Views
    release_Year := if hasRD then r.release_Date.map Date.year else none
    release_Month := if hasRD then r.release_Date.map Date.month else none
    release_Month_Name :=
      if hasRD then r.release_Date.map (fun d => monthName d.month) else none
    viewing_Year := if hasVM then r.viewing_Month.map Date.year else none
    viewing_Month_Num := if hasVM then r.viewing_Month.map Date.month else none
    viewing_Month_Name :=
      if hasVM then r.viewing_Month.map (fun d => monthName d.month) else none
    engagement_Score :=
      match r.viewer_Rate, r.number_of_Views with
      | some a, some b => some ((a : ℝ) * Real.log (1 + (b : ℝ)))
      | _, _ => none }

/-- The cleaned table returned by the pipeline. -/
noncomputable def cleanTable (t : RawTable) : List CleanedRow :=
  (cleanRows t).map (derive t.hasReleaseDate t.hasViewingMonth)

/-- Column count after feature derivation: three date parts per
existing date column plus `Engagement_Score`. -/
def finalCols (t : RawTable) : Nat :=
  t.ncols + (if t.hasReleaseDate then 3 else 0)
    + (if t.hasViewingMonth then 3 else 0) + 1

/-- The `preprocessing_info` record (source lines 578-584). -/
structure PreprocessingInfo where
  original_rows : Nat
  original_cols : Nat
  final_rows : Nat
  final_cols : Nat
  removed_rows : Int
deriving DecidableEq, Repr

/-- Summary computation (source lines 578-584): `original_shape` is
taken right after parsing (line 534), the final shape from the
cleaned table. -/
def preprocessing_info (t : RawTable) : PreprocessingInfo :=
  { original_rows := t.rows.length
    original_cols := t.ncols
    final_rows := (cleanRows t).length
    final_cols := finalCols t
    removed_rows := (t.rows.length : Int) - ((cleanRows t).length : Int) }

/-- The result of trying to read the uploaded bytes as one of the two
formats: a parsed table, or the message of the exception pandas
raises. -/
inductive ReadOutcome where
  | ok : RawTable → ReadOutcome
  | err : String → ReadOutcome
deriving DecidableEq, Repr

/-- An uploaded file: its name, and what `pd.read_csv` respectively
`pd.read_excel` would yield on its bytes. -/
structure UploadedFile where
  name : String
  csv_read : ReadOutcome
  excel_read : ReadOutcome

/-- Python's `str.endswith`: the characters of `suffix` are a suffix
of the characters of `s`. -/
def strEndsWith (s suffix : String) : Bool :=
  suffix.data.isSuffixOf s.data

/-- The parse dispatch of source lines 528-531: `read_csv` when the
file name ends with `.csv`, otherwise `read_excel` — there is no
third branch. -/
def parseFile (f : UploadedFile) : ReadOutcome :=
  if strEndsWith f.name ".csv" then f.csv_read else f.excel_read

/-- What `load_and_preprocess_data` hands back to the caller: the two
return values, plus the `st.error` message shown on failure. -/
structure LoadOutput where
  data : Option (List CleanedRow)
  info : Option PreprocessingInfo
  error_message : Option String

/-- Full `load_and_preprocess_data` (source lines 524-590): the try
block runs parse and the cleaning pipeline; any exception is caught
by the `except` clause, which shows `Error loading data: <msg>` and
returns `(None, None)`. -/
noncomputable def load_and_preprocess_data (f : UploadedFile) : LoadOutput :=
  match parseFile f with
  | .ok t => ⟨some (cleanTable t), some (preprocessing_info t), none⟩
  | .err e => ⟨none, none, some ("Error loading data: " ++ e)⟩

/-- Insertion into a sorted list of rationals. -/
def insertSorted (x : ℚ) : List ℚ → List ℚ
  | [] => [x]
  | y :: ys => if x ≤ y then x :: y :: ys else y :: insertSorted x ys

/-- Insertion sort on rationals. -/
def sortRat (l : List ℚ) : List ℚ :=
  l.foldr insertSorted []

/-- `Series.median()`: middle element of the sorted values, or the
mean of the two middle elements when the count is even (pandas skips
missing values before this; callers pass the non-missing values). -/
def median (l : List ℚ) : ℚ :=
  let s := sortRat l
  let n := s.length
  if n = 0 then 0
  else if n % 2 = 1 then s.getD (n / 2) 0
  else (s.getD (n / 2 - 1) 0 + s.getD (n / 2) 0) / 2

/-- Pandas comparison of a possibly-missing value against a scalar:
`NaN >= b` is `false`. -/
def cmpGE (a : Option ℚ) (b : ℚ) : Bool :=
  match a with
  | some x => decide (b ≤ x)
  | none => false

/-- Pandas comparison of a possibly-missing value against a scalar:
`NaN < b` is `false`. -/
def cmpLT (a : Option ℚ) (b : ℚ) : Bool :=
  match a with
  | some x => decide (x < b)
  | none => false

/-- The quadrant label of one row (source lines 1113-1116): start
from `'Low Performance'` and overwrite by the three masked
assignments, in the source's order. -/
def quadrantOf (mv mr : ℚ) (views rating : Option ℚ) : String :=
  let q := "Low Performance"
  let q := if cmpGE views mv && cmpGE rating mr then "Star Performers" else q
  let q := if cmpGE views mv && cmpLT rating mr then "High Views, Low Rating" else q
  let q := if cmpLT views mv && cmpGE rating mr then "Hidden Gems" else q
  q

/-- The quadrant step (source lines 1110-1116): compute the two
column medians over the cleaned table, then label every row. -/
def addQuadrantColumn (rows : List NRow) : List (NRow × String) :=
  let mv := median (rows.filterMap fun r => r.number_of_Views)
  let mr := median (rows.filterMap fun r => r.viewer_Rate)
  rows.map fun r => (r, quadrantOf mv mr r.number_of_Views r.viewer_Rate)

/-! ## Helper lemmas -/

theorem ddAux_sublist {α : Type} [DecidableEq α] (seen l : List α) :
    List.Sublist (ddAux seen l) l := by
  induction l generalizing seen with
  | nil => simp [ddAux]
  | cons x xs ih =>
    simp only [ddAux]
    split
    · exact (ih seen).cons x
    · exact (ih (x :: seen)).cons₂ x

theorem mem_ddAux {α : Type} [DecidableEq α] {seen l : List α} {a : α} :
    a ∈ ddAux seen l ↔ a ∈ l ∧ a ∉ seen := by
  induction l generalizing seen with
  | nil => simp [ddAux]
  | cons x xs ih =>
    simp only [ddAux]
    split
    · rename_i hx
      constructor
      · intro h
        exact ⟨List.mem_cons_of_mem _ (ih.mp h).1, (ih.mp h).2⟩
      · rintro ⟨h1, h2⟩
        rcases List.mem_cons.mp h1 with rfl | h1
        · exact absurd hx h2
        · exact ih.mpr ⟨h1, h2⟩
    · rename_i hx
      constructor
      · intro h
        rcases List.mem_cons.mp h with rfl | h
        · exact ⟨List.mem_cons_self _ _, hx⟩
        · have h' := ih.mp h
          exact ⟨List.mem_cons_of_mem _ h'.1,
            fun hs => h'.2 (List.mem_cons_of_mem _ hs)⟩
      · rintro ⟨h1, h2⟩
        by_cases hax : a = x
        · subst hax; exact List.mem_cons_self _ _
        · rcases List.mem_cons.mp h1 with rfl | h1
          · exact absurd rfl hax
          · refine List.mem_cons_of_mem _ (ih.mpr ⟨h1, ?_⟩)
            intro hs
            rcases List.mem_cons.mp hs with rfl | hs
            · exact hax rfl
            · exact h2 hs

theorem ddAux_nodup {α : Type} [DecidableEq α] (seen l : List α) :
    (ddAux seen l).Nodup := by
  induction l generalizing seen with
  | nil => simp [ddAux]
  | cons x xs ih =>
    simp only [ddAux]
    split
    · exact ih seen
    · rw [List.nodup_cons]
      exact ⟨fun h => (mem_ddAux.mp h).2 (List.mem_cons_self x seen), ih (x :: seen)⟩

theorem drop_duplicates_sublist {α : Type} [DecidableEq α] (l : List α) :
    List.Sublist (drop_duplicates l) l :=
  ddAux_sublist [] l

theorem drop_duplicates_nodup {α : Type} [DecidableEq α] (l : List α) :
    (drop_duplicates l).Nodup :=
  ddAux_nodup [] l

theorem mem_drop_duplicates {α : Type} [DecidableEq α] {l : List α} {a : α} :
    a ∈ drop_duplicates l ↔ a ∈ l := by
  unfold drop_duplicates
  rw [mem_ddAux]
  simp

theorem ddAux_congr {α : Type} [DecidableEq α] {l s1 s2 : List α}
    (h : ∀ a ∈ l, (a ∈ s1 ↔ a ∈ s2)) : ddAux s1 l = ddAux s2 l := by
  induction l generalizing s1 s2 with
  | nil => rfl
  | cons x xs ih =>
    simp only [ddAux]
    have hx := h x (List.mem_cons_self _ _)
    by_cases h1 : x ∈ s1
    · rw [if_pos h1, if_pos (hx.mp h1)]
      exact ih fun a ha => h a (List.mem_cons_of_mem _ ha)
    · rw [if_neg h1, if_neg (fun h2 => h1 (hx.mpr h2))]
      congr 1
      refine ih fun a ha => ?_
      have := h a (List.mem_cons_of_mem _ ha)
      simp only [List.mem_cons]
      exact or_congr Iff.rfl this

theorem ddAux_filter_seen {α : Type} [DecidableEq α] (x : α) (seen l : List α)
    (hx : x ∈ seen) : ddAux seen l = ddAux seen (l.filter fun y => y ≠ x) := by
  induction l generalizing seen with
  | nil => rfl
  | cons a as ih =>
    by_cases hax : a = x
    · subst hax
      rw [List.filter_cons_of_neg (by simp)]
      simp only [ddAux, if_pos hx]
      exact ih seen hx
    · rw [List.filter_cons_of_pos (by simp [hax])]
      simp only [ddAux]
      by_cases ha : a ∈ seen
      · rw [if_pos ha, if_pos ha]
        exact ih seen hx
      · rw [if_neg ha, if_neg ha]
        congr 1
        exact ih (a :: seen) (List.mem_cons_of_mem _ hx)

theorem drop_duplicates_cons {α : Type} [DecidableEq α] (x : α) (xs : List α) :
    drop_duplicates (x :: xs) = x :: drop_duplicates (xs.filter fun y => y ≠ x) := by
  unfold drop_duplicates
  have h0 : ddAux ([] : List α) (x :: xs) = x :: ddAux [x] xs := by
    simp [ddAux]
  rw [h0]
  congr 1
  rw [ddAux_filter_seen x [x] xs (List.mem_singleton_self x)]
  refine ddAux_congr fun a ha => ?_
  have hne : a ≠ x := by simpa using List.of_mem_filter ha
  simp [hne]

theorem yearLT2026_iff {od : Option Date} :
    yearLT2026 od = true ↔ ∃ d, od = some d ∧ d.year < 2026 := by
  cases od with
  | none => simp [yearLT2026]
  | some d => simp [yearLT2026]

theorem mem_filterFutureDates {hasRD hasVM : Bool} {rows : List Row} {r : Row} :
    r ∈ filterFutureDates hasRD hasVM rows ↔
      r ∈ rows ∧ (hasRD = true → yearLT2026 r.release_Date = true)
        ∧ (hasVM = true → yearLT2026 r.viewing_Month = true) := by
  unfold filterFutureDates
  cases hasRD <;> cases hasVM <;>
    simp [List.mem_filter, and_assoc] <;>
    tauto

theorem filterFutureDates_length_le (hasRD hasVM : Bool) (rows : List Row) :
    (filterFutureDates hasRD hasVM rows).length ≤ rows.length := by
  unfold filterFutureDates
  cases hasRD <;> cases hasVM <;> simp [List.filter_filter] <;>
    exact List.length_filter_le _ _

theorem cleanRows_length_le (t : RawTable) :
    (cleanRows t).length ≤ t.rows.length := by
  unfold cleanRows
  calc (dropnaNumeric (coerceNumeric (dropnaFilm (drop_duplicates
          (filterFutureDates t.hasReleaseDate t.hasViewingMonth (coerceDates t)))))).length
      ≤ (coerceNumeric (dropnaFilm (drop_duplicates
          (filterFutureDates t.hasReleaseDate t.hasViewingMonth (coerceDates t))))).length :=
        List.length_filter_le _ _
    _ = (dropnaFilm (drop_duplicates
          (filterFutureDates t.hasReleaseDate t.hasViewingMonth (coerceDates t)))).length :=
        List.length_map _ _
    _ ≤ (drop_duplicates
          (filterFutureDates t.hasReleaseDate t.hasViewingMonth (coerceDates t))).length :=
        List.length_filter_le _ _
    _ ≤ (filterFutureDates t.hasReleaseDate t.hasViewingMonth (coerceDates t)).length :=
        (drop_duplicates_sublist _).length_le
    _ ≤ (coerceDates t).length := filterFutureDates_length_le _ _ _
    _ = t.rows.length := List.length_map _ _

/-- Everything the cleaning pipeline guarantees about a surviving row:
required fields present, and an explicit pre-2026 date in every date
column that exists in the table. -/
theorem mem_cleanRows_props {t : RawTable} {r : NRow} (h : r ∈ cleanRows t) :
    r.film_Name.isSome = true ∧ r.viewer_Rate.isSome = true
      ∧ r.number_of_Views.isSome = true
      ∧ (t.hasReleaseDate = true → ∃ d, r.release_Date = some d ∧ d.year < 2026)
      ∧ (t.hasViewingMonth = true → ∃ d, r.viewing_Month = some d ∧ d.year < 2026) := by
  unfold cleanRows dropnaNumeric at h
  obtain ⟨h1, h2⟩ := List.mem_filter.mp h
  obtain ⟨r', hr', rfl⟩ := List.mem_map.mp h1
  unfold dropnaFilm at hr'
  obtain ⟨hr1, hfilm⟩ := List.mem_filter.mp hr'
  have hr2 : r' ∈ filterFutureDates t.hasReleaseDate t.hasViewingMonth (coerceDates t) :=
    (drop_duplicates_sublist _).subset hr1
  obtain ⟨-, hrd, hvm⟩ := mem_filterFutureDates.mp hr2
  simp only [Bool.and_eq_true] at h2
  refine ⟨hfilm, h2.1, h2.2, ?_, ?_⟩
  · intro hflag
    exact yearLT2026_iff.mp (hrd hflag)
  · intro hflag
    exact yearLT2026_iff.mp (hvm hflag)

theorem derive_film_Name (hasRD hasVM : Bool) (r : NRow) :
    (derive hasRD hasVM r).film_Name = r.film_Name := rfl

theorem cleanTable_length (t : RawTable) :
    (cleanTable t).length = (cleanRows t).length :=
  List.length_map _ _

/-! ## Concrete inputs used by witnesses and counterexamples -/

/-- A fully valid raw row used as witness input. -/
def sampleRaw : RawRow :=
  { film_Name := some "A", category := none, language := none
    release_Date := .value ⟨2025, 1, 1⟩, viewing_Month := .value ⟨2025, 6, 1⟩
    viewer_Rate := .entry "4" (some 4), number_of_Views := .entry "1000" (some 1000) }

/-- A one-row table with both date columns present. -/
def sampleTable : RawTable := ⟨true, true, [sampleRaw]⟩

/-- The coerced form of `sampleRaw`. -/
def sampleNRow : NRow :=
  { film_Name := some "A", category := none, language := none
    release_Date := some ⟨2025, 1, 1⟩, viewing_Month := some ⟨2025, 6, 1⟩
    viewer_Rate := some 4, number_of_Views := some 1000 }

theorem cleanRows_sample : cleanRows sampleTable = [sampleNRow] := by decide

theorem cleanTable_sample :
    cleanTable sampleTable = [derive true true sampleNRow] := by
  rw [cleanTable, cleanRows_sample]
  rfl

theorem mem_cleanTable_sample :
    derive true true sampleNRow ∈ cleanTable sampleTable := by
  rw [cleanTable_sample]
  exact List.mem_singleton_self _

/-! ## Claim theorems -/

/-- C1 (amended): in the future-date filtering step, a row survives
iff, for every date column that exists, it has an explicit
(non-missing, parseable) date with year strictly below 2026.
Equivalently, the step removes exactly the rows that lack such a date
in some existing date column — so rows whose `Release_Date` or
`Viewing_Month` is missing in an existing column ARE dropped, not
only rows with an explicit year ≥ 2026. -/
theorem future_date_filter_survives_iff (hasRD hasVM : Bool)
    (rows : List Row) (r : Row) :
    r ∈ filterFutureDates hasRD hasVM rows ↔
      r ∈ rows
        ∧ (hasRD = true → ∃ d, r.release_Date = some d ∧ d.year < 2026)
        ∧ (hasVM = true → ∃ d, r.viewing_Month = some d ∧ d.year < 2026) := by
  rw [mem_filterFutureDates]
  simp only [yearLT2026_iff]

/-- C1 counterexample: a row whose `Release_Date` is missing (and the
column exists) is removed by the future-date filtering step, refuting
the claim that rows with missing dates are never dropped by it. -/
def missingDateRow : Row :=
  { film_Name := some "A", category := none, language := none
    release_Date := none, viewing_Month := none
    viewer_Rate := .entry "4" (some 4), number_of_Views := .entry "1000" (some 1000) }

/-- C1 counterexample theorem: `missingDateRow` has no explicit date
at all, yet the future-date filtering step removes it. -/
theorem future_date_filter_missing_dropped_cex :
    missingDateRow.release_Date = none ∧ missingDateRow.viewing_Month = none
      ∧ filterFutureDates true false [missingDateRow] = []
      ∧ missingDateRow ∉ filterFutureDates true false [missingDateRow] := by
  decide

/-- C2 (amended): the deduplication step removes exact full-row
duplicates keeping the first occurrence, so the table right after
that step has no two identical rows; but because deduplication runs
before numeric coercion, the final cleaned table may again contain
fully identical rows (see the counterexample). -/
theorem dedup_step_nodup_keep_first (t : RawTable) :
    (drop_duplicates (filterFutureDates t.hasReleaseDate t.hasViewingMonth
        (coerceDates t))).Nodup
      ∧ ∀ (x : Row) (xs : List Row),
          drop_duplicates (x :: xs)
            = x :: drop_duplicates (xs.filter fun y => y ≠ x) :=
  ⟨drop_duplicates_nodup _, drop_duplicates_cons⟩

/-- C2 counterexample input: two raw rows that differ only in the raw
spelling of `Viewer_Rate` (`"4"` vs `"4.0"`). -/
def dupRaw1 : RawRow :=
  { film_Name := some "A", category := none, language := none
    release_Date := .missing, viewing_Month := .missing
    viewer_Rate := .entry "4" (some 4), number_of_Views := .entry "1000" (some 1000) }

/-- C2 counterexample input, second spelling. -/
def dupRaw2 : RawRow :=
  { film_Name := some "A", category := none, language := none
    release_Date := .missing, viewing_Month := .missing
    viewer_Rate := .entry "4.0" (some 4), number_of_Views := .entry "1000" (some 1000) }

/-- C2 counterexample table: no date columns, the two near-duplicate
rows. -/
def dupTable : RawTable := ⟨false, false, [dupRaw1, dupRaw2]⟩

/-- The row both survivors of `dupTable` coerce to. -/
def mergedNRow : NRow :=
  { film_Name := some "A", category := none, language := none
    release_Date := none, viewing_Month := none
    viewer_Rate := some 4, number_of_Views := some 1000 }

/-- C2 counterexample theorem: the two input rows are distinct, so
deduplication keeps both, but numeric coercion merges them and the
final cleaned table contains two fully identical rows. -/
theorem cleaned_table_duplicates_cex :
    dupRaw1 ≠ dupRaw2 ∧ cleanRows dupTable = [mergedNRow, mergedNRow]
      ∧ ¬ (cleanTable dupTable).Nodup := by
  refine ⟨by decide, by decide, ?_⟩
  have h : cleanRows dupTable = [mergedNRow, mergedNRow] := by decide
  rw [cleanTable, h]
  simp

/-- C5: every row of the cleaned table has a non-null `Film_Name` and
present (numeric) `Viewer_Rate` and `Number_of_Views`. -/
theorem cleaned_required_fields_present (t : RawTable) (cr : CleanedRow)
    (h : cr ∈ cleanTable t) :
    cr.film_Name.isSome = true ∧ cr.viewer_Rate.isSome = true
      ∧ cr.number_of_Views.isSome = true := by
  obtain ⟨r, hr, rfl⟩ := List.mem_map.mp h
  obtain ⟨h1, h2, h3, -, -⟩ := mem_cleanRows_props hr
  exact ⟨h1, h2, h3⟩

/-- C5 witness: the required fields of the one cleaned row of
`sampleTable`. -/
theorem cleaned_required_fields_present_witness :
    (derive true true sampleNRow).film_Name.isSome = true
      ∧ (derive true true sampleNRow).viewer_Rate.isSome = true
      ∧ (derive true true sampleNRow).number_of_Views.isSome = true :=
  cleaned_required_fields_present sampleTable _ mem_cleanTable_sample

/-- C8: the preprocessing summary satisfies
`final_row_count ≤ original_row_count` and
`removed_row_count = original_row_count - final_row_count`, with the
original count taken right after parsing and the final count equal to
the cleaned table's length. -/
theorem summary_row_counts (t : RawTable) :
    (preprocessing_info t).final_rows ≤ (preprocessing_info t).original_rows
      ∧ (preprocessing_info t).removed_rows
          = ((preprocessing_info t).original_rows : Int)
            - ((preprocessing_info t).final_rows : Int)
      ∧ (preprocessing_info t).original_rows = t.rows.length
      ∧ (preprocessing_info t).final_rows = (cleanTable t).length :=
  ⟨cleanRows_length_le t, rfl, rfl, (cleanTable_length t).symm⟩

/-- C9: the two outputs of `load_and_preprocess_data` are absent
together, and when any step raises (here: reading the file fails) the
function returns no partial result and shows a single error message
carrying the underlying text. -/
theorem load_failure_no_partial_result (f : UploadedFile) :
    ((load_and_preprocess_data f).data = none
        ↔ (load_and_preprocess_data f).info = none)
      ∧ ∀ e, parseFile f = .err e →
          load_and_preprocess_data f
            = ⟨none, none, some ("Error loading data: " ++ e)⟩ := by
  constructor
  · cases hp : parseFile f <;> simp [load_and_preprocess_data, hp]
  · intro e he
    simp [load_and_preprocess_data, he]

/-- A csv upload whose bytes fail to parse. -/
def badFile : UploadedFile :=
  ⟨"bad.csv", .err "malformed", .ok ⟨false, false, []⟩⟩

/-- C9 witness: the failing upload yields no table, no summary, and
the wrapped error message. -/
theorem load_failure_no_partial_result_witness :
    load_and_preprocess_data badFile
      = ⟨none, none, some ("Error loading data: " ++ "malformed")⟩ :=
  (load_failure_no_partial_result badFile).2 "malformed" (by decide)

/-- C10: when a date column exists in the parsed table, every row of
the cleaned table carries a successfully parsed (non-missing) date in
that column. -/
theorem cleaned_rows_have_parsed_dates (t : RawTable) (cr : CleanedRow)
    (h : cr ∈ cleanTable t) :
    (t.hasReleaseDate = true → ∃ d, cr.release_Date = some d)
      ∧ (t.hasViewingMonth = true → ∃ d, cr.viewing_Month = some d) := by
  obtain ⟨r, hr, rfl⟩ := List.mem_map.mp h
  obtain ⟨-, -, -, h4, h5⟩ := mem_cleanRows_props hr
  constructor
  · intro hf
    obtain ⟨d, hd, -⟩ := h4 hf
    exact ⟨d, hd⟩
  · intro hf
    obtain ⟨d, hd, -⟩ := h5 hf
    exact ⟨d, hd⟩

/-- C10 witness: the one cleaned row of `sampleTable` (both date
columns exist) has parsed dates in both columns. -/
theorem cleaned_rows_have_parsed_dates_witness :
    (∃ d, (derive true true sampleNRow).release_Date = some d)
      ∧ ∃ d, (derive true true sampleNRow).viewing_Month = some d :=
  ⟨(cleaned_rows_have_parsed_dates sampleTable _ mem_cleanTable_sample).1 rfl,
   (cleaned_rows_have_parsed_dates sampleTable _ mem_cleanTable_sample).2 rfl⟩

/-- C3 (amended): the parse step reads a file as delimited text (the
csv-read outcome) when its name ends in `.csv`, and otherwise
attempts to read it as a spreadsheet (the excel-read outcome); there
is no distinct unsupported-format error — an unrecognized extension
is parsed as a spreadsheet, and on either branch a read failure
surfaces only through the catch-all error path. -/
theorem parse_dispatch_by_extension (f : UploadedFile) :
    (strEndsWith f.name ".csv" = true →
        (∀ t, f.csv_read = .ok t →
            load_and_preprocess_data f
              = ⟨some (cleanTable t), some (preprocessing_info t), none⟩)
          ∧ ∀ e, f.csv_read = .err e →
              load_and_preprocess_data f
                = ⟨none, none, some ("Error loading data: " ++ e)⟩)
      ∧ (strEndsWith f.name ".csv" = false →
          (∀ t, f.excel_read = .ok t →
              load_and_preprocess_data f
                = ⟨some (cleanTable t), some (preprocessing_info t), none⟩)
            ∧ ∀ e, f.excel_read = .err e →
                load_and_preprocess_data f
                  = ⟨none, none, some ("Error loading data: " ++ e)⟩) := by
  constructor
  · intro h
    have hp : parseFile f = f.csv_read := by
      unfold parseFile
      rw [h]
      simp
    constructor
    · intro t ht
      simp [load_and_preprocess_data, hp.trans ht]
    · intro e he
      simp [load_and_preprocess_data, hp.trans he]
  · intro h
    have hp : parseFile f = f.excel_read := by
      unfold parseFile
      rw [h]
      simp
    constructor
    · intro t ht
      simp [load_and_preprocess_data, hp.trans ht]
    · intro e he
      simp [load_and_preprocess_data, hp.trans he]

/-- An empty parsed table. -/
def emptyTable : RawTable := ⟨false, false, []⟩

/-- C3 counterexample input: a `.txt` upload whose bytes happen to be
readable as a spreadsheet. -/
def txtFile : UploadedFile := ⟨"data.txt", .err "not a csv", .ok emptyTable⟩

/-- C3 counterexample theorem: `data.txt` is neither a `.csv` nor an
`.xlsx` name, yet the pipeline succeeds on it (no error, a table is
returned) because every non-`.csv` file is handed to the spreadsheet
reader — there is no unsupported-format failure. -/
theorem unrecognized_extension_no_failure_cex :
    strEndsWith "data.txt" ".csv" = false
      ∧ strEndsWith "data.txt" ".xlsx" = false
      ∧ (load_and_preprocess_data txtFile).data ≠ none
      ∧ (load_and_preprocess_data txtFile).error_message = none := by
  have hp : parseFile txtFile = .ok emptyTable := by decide
  refine ⟨by decide, by decide, ?_, ?_⟩ <;>
    simp [load_and_preprocess_data, hp]

/-- A `.csv` upload whose bytes parse as delimited text. -/
def csvFile : UploadedFile := ⟨"ok.csv", .ok emptyTable, .err "unused"⟩

/-- C3 witness: the `.csv` upload is handed to the delimited-text
reader and succeeds with its outcome, and the `.txt` upload is handed
to the spreadsheet reader and succeeds with its outcome. -/
theorem parse_dispatch_by_extension_witness :
    load_and_preprocess_data csvFile
        = ⟨some (cleanTable emptyTable), some (preprocessing_info emptyTable), none⟩
      ∧ load_and_preprocess_data txtFile
          = ⟨some (cleanTable emptyTable), some (preprocessing_info emptyTable), none⟩ :=
  ⟨((parse_dispatch_by_extension csvFile).1 (by decide)).1 emptyTable rfl,
   ((parse_dispatch_by_extension txtFile).2 (by decide)).1 emptyTable rfl⟩

/-- C4 input: the spec's four-row example, uploaded as a csv. -/
def exRowA : RawRow :=
  { film_Name := some "A", category := none, language := none
    release_Date := .value ⟨2025, 1, 1⟩, viewing_Month := .missing
    viewer_Rate := .entry "4" (some 4), number_of_Views := .entry "1000" (some 1000) }

/-- C4 input: the row with a missing `Film_Name` (and no
`Release_Date`). -/
def exRowNoName : RawRow :=
  { film_Name := none, category := none, language := none
    release_Date := .missing, viewing_Month := .missing
    viewer_Rate := .entry "3" (some 3), number_of_Views := .entry "500" (some 500) }

/-- C4 input: the 2027 row. -/
def exRowB : RawRow :=
  { film_Name := some "B", category := none, language := none
    release_Date := .value ⟨2027, 1, 1⟩, viewing_Month := .missing
    viewer_Rate := .entry "5" (some 5), number_of_Views := .entry "200" (some 200) }

/-- C4 input table: `Release_Date` column present, `Viewing_Month`
absent, four rows with the "A" row duplicated. -/
def exTable : RawTable := ⟨true, false, [exRowA, exRowA, exRowNoName, exRowB]⟩

/-- C4 input file. -/
def exFile : UploadedFile := ⟨"films.csv", .ok exTable, .err "unused"⟩

/-- The cleaned (pre-derivation) form of the surviving "A" row. -/
def exNRowA : NRow :=
  { film_Name := some "A", category := none, language := none
    release_Date := some ⟨2025, 1, 1⟩, viewing_Month := none
    viewer_Rate := some 4, number_of_Views := some 1000 }

/-- C4: on the spec's four-row example the pipeline returns exactly
one cleaned row — the "A" row — and a summary with
`removed_row_count = 3` (original 4 rows, final 1). -/
theorem example_four_rows_cleaned :
    (load_and_preprocess_data exFile).data = some [derive true false exNRowA]
      ∧ exNRowA.film_Name = some "A"
      ∧ (load_and_preprocess_data exFile).info
          = some { original_rows := 4, original_cols := 6, final_rows := 1
                   final_cols := 10, removed_rows := 3 } := by
  have hp : parseFile exFile = .ok exTable := by decide
  have hc : cleanRows exTable = [exNRowA] := by decide
  have hi : preprocessing_info exTable
      = { original_rows := 4, original_cols := 6, final_rows := 1
          final_cols := 10, removed_rows := 3 } := by decide
  refine ⟨?_, rfl, ?_⟩
  · simp only [load_and_preprocess_data, hp]
    rw [cleanTable, hc]
    rfl
  · simp only [load_and_preprocess_data, hp, hi]

/-- C6: for every row of the cleaned table whose `Viewer_Rate` and
`Number_of_Views` are present (they always are, by C5), the derived
`Engagement_Score` equals `Viewer_Rate * ln(1 + Number_of_Views)` —
exactly, since the embedding computes over the reals. -/
theorem engagement_score_formula (t : RawTable) (cr : CleanedRow)
    (h : cr ∈ cleanTable t) (a b : ℚ)
    (ha : cr.viewer_Rate = some a) (hb : cr.number_of_Views = some b) :
    cr.engagement_Score = some ((a : ℝ) * Real.log (1 + (b : ℝ))) := by
  obtain ⟨r, hr, rfl⟩ := List.mem_map.mp h
  have ha' : r.viewer_Rate = some a := ha
  have hb' : r.number_of_Views = some b := hb
  simp [derive, ha', hb']

/-- C6 witness: the engagement score of the one cleaned row of
`sampleTable`. -/
theorem engagement_score_formula_witness :
    (derive true true sampleNRow).engagement_Score
      = some (((4 : ℚ) : ℝ) * Real.log (1 + ((1000 : ℚ) : ℝ))) :=
  engagement_score_formula sampleTable _ mem_cleanTable_sample 4 1000 rfl rfl

/-- C7: the quadrant step labels every row by comparing its views and
rating to the dataset-wide medians of the two columns, with ties
(value equal to the median) classified on the `≥` side:
views ≥ median and rating ≥ median gives `Star Performers`;
views ≥ median and rating < median gives `High Views, Low Rating`;
views < median and rating ≥ median gives `Hidden Gems`; otherwise
`Low Performance`.  The nested conditional on the right assigns
exactly one of the four labels. -/
theorem quadrant_labels_by_medians (rows : List NRow) (r : NRow) (lbl : String)
    (h : (r, lbl) ∈ addQuadrantColumn rows) (v q : ℚ)
    (hv : r.number_of_Views = some v) (hq : r.viewer_Rate = some q) :
    lbl = (if median (rows.filterMap fun s => s.number_of_Views) ≤ v then
             if median (rows.filterMap fun s => s.viewer_Rate) ≤ q then
               "Star Performers"
             else "High Views, Low Rating"
           else
             if median (rows.filterMap fun s => s.viewer_Rate) ≤ q then
               "Hidden Gems"
             else "Low Performance") := by
  simp only [addQuadrantColumn] at h
  obtain ⟨r', hr', heq⟩ := List.mem_map.mp h
  obtain ⟨hre, hle⟩ := Prod.ext_iff.mp heq
  subst hre
  subst hle
  rw [hv, hq]
  rcases le_or_lt (median (rows.filterMap fun s => s.number_of_Views)) v with h1 | h1
  · rcases le_or_lt (median (rows.filterMap fun s => s.viewer_Rate)) q with h2 | h2
    · simp [quadrantOf, cmpGE, cmpLT, h1, h2, not_lt.mpr h1, not_lt.mpr h2]
    · simp [quadrantOf, cmpGE, cmpLT, h1, h2, not_lt.mpr h1, not_le.mpr h2]
  · rcases le_or_lt (median (rows.filterMap fun s => s.viewer_Rate)) q with h2 | h2
    · simp [quadrantOf, cmpGE, cmpLT, h1, h2, not_le.mpr h1, not_lt.mpr h2]
    · simp [quadrantOf, cmpGE, cmpLT, h1, h2, not_le.mpr h1, not_le.mpr h2]

/-- C7 witness row: 800 views, rating 3.5. -/
def qRowLow : NRow :=
  { film_Name := some "L", category := none, language := none
    release_Date := none, viewing_Month := none
    viewer_Rate := some (7 / 2), number_of_Views := some 800 }

/-- C7 witness row: 1200 views, rating 4.5. -/
def qRowHigh : NRow :=
  { film_Name := some "H", category := none, language := none
    release_Date := none, viewing_Month := none
    viewer_Rate := some (9 / 2), number_of_Views := some 1200 }

theorem qMedianViews :
    median ([qRowLow, qRowHigh].filterMap fun s => s.number_of_Views) = 1000 := by
  norm_num [qRowLow, qRowHigh, median, sortRat, insertSorted,
    List.filterMap_cons, List.getD]

theorem qMedianRate :
    median ([qRowLow, qRowHigh].filterMap fun s => s.viewer_Rate) = 4 := by
  norm_num [qRowLow, qRowHigh, median, sortRat, insertSorted,
    List.filterMap_cons, List.getD]

theorem qMem :
    (qRowLow, "Low Performance") ∈ addQuadrantColumn [qRowLow, qRowHigh] := by
  simp only [addQuadrantColumn, qMedianViews, qMedianRate]
  refine List.mem_map.mpr ⟨qRowLow, List.mem_cons_self _ _, ?_⟩
  norm_num [qRowLow, quadrantOf, cmpGE, cmpLT]

/-- C7 witness: in a table whose medians are 1000 views and rating 4,
the row with 800 views and rating 3.5 is labelled
`Low Performance`. -/
theorem quadrant_labels_by_medians_witness :
    ("Low Performance" : String)
      = (if median ([qRowLow, qRowHigh].filterMap fun s => s.number_of_Views)
              ≤ (800 : ℚ) then
           if median ([qRowLow, qRowHigh].filterMap fun s => s.viewer_Rate)
               ≤ (7 / 2 : ℚ) then
             "Star Performers"
           else "High Views, Low Rating"
         else
           if median ([qRowLow, qRowHigh].filterMap fun s => s.viewer_Rate)
               ≤ (7 / 2 : ℚ) then
             "Hidden Gems"
           else "Low Performance") :=
  quadrant_labels_by_medians [qRowLow, qRowHigh] qRowLow "Low Performance"
    qMem 800 (7 / 2) rfl rfl

/-- C1 witness: the amended filter characterization instantiated at
the concrete missing-date row. -/
theorem future_date_filter_survives_iff_witness :
    missingDateRow ∈ filterFutureDates true false [missingDateRow] ↔
      missingDateRow ∈ [missingDateRow]
        ∧ (true = true → ∃ d, missingDateRow.release_Date = some d ∧ d.year < 2026)
        ∧ (false = true → ∃ d, missingDateRow.viewing_Month = some d ∧ d.year < 2026) :=
  future_date_filter_survives_iff true false [missingDateRow] missingDateRow

/-- C2 witness: the deduplication guarantees instantiated at the
concrete two-row table. -/
theorem dedup_step_nodup_keep_first_witness :
    (drop_duplicates (filterFutureDates dupTable.hasReleaseDate
        dupTable.hasViewingMonth (coerceDates dupTable))).Nodup
      ∧ ∀ (x : Row) (xs : List Row),
          drop_duplicates (x :: xs)
            = x :: drop_duplicates (xs.filter fun y => y ≠ x) :=
  dedup_step_nodup_keep_first dupTable

/-- C8 witness: the summary arithmetic instantiated at the four-row
example table. -/
theorem summary_row_counts_witness :
    (preprocessing_info exTable).final_rows ≤ (preprocessing_info exTable).original_rows
      ∧ (preprocessing_info exTable).removed_rows
          = ((preprocessing_info exTable).original_rows : Int)
            - ((preprocessing_info exTable).final_rows : Int)
      ∧ (preprocessing_info exTable).original_rows = exTable.rows.length
      ∧ (preprocessing_info exTable).final_rows = (cleanTable exTable).length :=
  summary_row_counts exTable
